import Mathlib

/-!
Verification of the aws-file-uploader repository: an Express backend route
(POST /api/upload, embedded in README.md) that forwards one multipart file
to S3 via PutObjectCommand, and a React client (src/App.jsx) that posts the
file and stores the returned URL. Both sides are shallowly embedded below
as pure functions; the claims of the specification are then settled as
theorems about those functions.
-/

/-- A file as multer memoryStorage delivers it on req.file: original name,
declared mime type, and the buffered bytes (each byte a Nat < 256). -/
structure UploadedFile where
  originalname : String
  mimetype : String
  buffer : List Nat
deriving DecidableEq, Repr

/-- sizeBytes of an upload is the length of its buffered body. -/
def sizeBytes (f : UploadedFile) : Nat := f.buffer.length

/-- An incoming multipart request to POST /api/upload: it either carries a
file under the field name file, or it carries none. -/
structure UploadRequest where
  file? : Option UploadedFile
deriving DecidableEq, Repr

/-- multer limits.fileSize from the source: 25 * 1024 * 1024 bytes. -/
def fileSizeLimit : Nat := 25 * 1024 * 1024

/-- Outcome of the multer middleware upload.single applied to a request. -/
inductive MulterResult where
  /-- the middleware passes control to the route handler, with req.file
  set to the given value (none when the request carried no file) -/
  | pass : Option UploadedFile → MulterResult
  /-- the middleware aborts with LIMIT_FILE_SIZE; the handler never runs -/
  | reject : MulterResult
deriving DecidableEq, Repr

/-- The multer middleware upload.single with memoryStorage and the
fileSize limit: a missing file passes through with req.file undefined;
a file within the limit passes through; a larger file is rejected. -/
def multerSingle (req : UploadRequest) : MulterResult :=
  match req.file? with
  | none => .pass none
  | some f => if sizeBytes f ≤ fileSizeLimit then .pass (some f) else .reject

/-- The params object handed to PutObjectCommand. -/
structure PutObjectParams where
  bucket : String
  key : String
  body : List Nat
  contentType : String
deriving DecidableEq, Repr

/-- Outcome of s3Client.send for one PutObjectCommand: the promise either
resolves or rejects (network, permission, throttling, ...). -/
inductive S3Outcome where
  | ok : S3Outcome
  | failure : S3Outcome
deriving DecidableEq, Repr

/-- An HTTP response as the handler produces it with res.status(n).json(b):
a status code and a flat JSON object whose values are strings (the only
shape this code ever emits). -/
structure HttpResponse where
  status : Nat
  body : List (String × String)
deriving DecidableEq, Repr

/-- Field lookup in a response body, as reading response.data.field would. -/
def bodyField (r : HttpResponse) (k : String) : Option String :=
  r.body.lookup k

/-- The URL string the handler builds on success:
https://bucket.s3.amazonaws.com/ followed by the raw original name. -/
def codeFileUrl (bucket name : String) : String :=
  "https://" ++ bucket ++ ".s3.amazonaws.com/" ++ name

/-- The body of the route handler of POST /api/upload, after multer has
run, as a function of the configured bucket name, req.file, and the
outcome of the single s3Client.send call. It returns the list of
PutObjectCommand params actually sent to S3 (in order) and the response.
When req.file is undefined, reading file.mimetype throws, and the catch
block answers 500 with the same error body as a storage failure. -/
def uploadHandler (bucketName : String) (reqFile : Option UploadedFile)
    (s3 : S3Outcome) : List PutObjectParams × HttpResponse :=
  match reqFile with
  | none => ([], ⟨500, [("error", "Failed to upload file to S3")]⟩)
  | some file =>
    let params : PutObjectParams :=
      ⟨bucketName, file.originalname, file.buffer, file.mimetype⟩
    match s3 with
    | .failure => ([params], ⟨500, [("error", "Failed to upload file to S3")]⟩)
    | .ok =>
      ([params], ⟨200, [("fileUrl", codeFileUrl bucketName file.originalname)]⟩)

/-- Result of the whole POST /api/upload route: either the handler ran and
produced a response (having sent the listed PutObjectCommands), or the
multer middleware aborted the request before the handler ran. -/
inductive RouteResult where
  | handlerResponse : List PutObjectParams → HttpResponse → RouteResult
  | middlewareReject : RouteResult
deriving DecidableEq, Repr

/-- The PutObjectCommands a route outcome sent to S3. -/
def sentCommands : RouteResult → List PutObjectParams
  | .handlerResponse sent _ => sent
  | .middlewareReject => []

/-- The complete POST /api/upload route: multer middleware, then handler. -/
def apiUpload (bucketName : String) (req : UploadRequest)
    (s3 : S3Outcome) : RouteResult :=
  match multerSingle req with
  | .reject => .middlewareReject
  | .pass rf =>
    let out := uploadHandler bucketName rf s3
    .handlerResponse out.1 out.2

/-- A status code in the client-error range. -/
def isClientErrorStatus (n : Nat) : Prop := 400 ≤ n ∧ n < 500

instance (n : Nat) : Decidable (isClientErrorStatus n) := by
  unfold isClientErrorStatus; infer_instance

/-- Lower nibble to a hex digit, as percent-encoding writes it. -/
def hexDigitChar (n : Nat) : Char :=
  if n < 10 then Char.ofNat (48 + n) else Char.ofNat (55 + n)

/-- UTF-8 bytes of one character. -/
def utf8Bytes (c : Char) : List Nat :=
  let n := c.toNat
  if n < 128 then [n]
  else if n < 2048 then [192 + n / 64, 128 + n % 64]
  else if n < 65536 then [224 + n / 4096, 128 + (n / 64) % 64, 128 + n % 64]
  else [240 + n / 262144, 128 + (n / 4096) % 64, 128 + (n / 64) % 64,
        128 + n % 64]

/-- Characters a URL encoder leaves untouched (the unreserved set). -/
def isUnreservedChar (c : Char) : Bool :=
  c.isAlphanum || c = '-' || c = '_' || c = '.' || c = '~'

/-- Modelled from the spec: the urlEncode function the spec names in the
URL construction https://bucket.storage-domain/urlEncode(originalName).
No such encoder exists anywhere in the source; this follows the usual
meaning of the words of the spec: percent-encode every byte of every
character outside the unreserved set. -/
def spec_urlEncode (s : String) : String :=
  String.mk (s.data.foldr
    (fun c acc =>
      if isUnreservedChar c then c :: acc
      else (utf8Bytes c).foldr
        (fun b acc2 => '%' :: hexDigitChar (b / 16) :: hexDigitChar (b % 16) :: acc2)
        acc)
    [])

/-- Modelled from the spec: the success URL as the spec words it, with the
original filename URL-encoded. Compared against codeFileUrl. -/
def spec_fileUrl (bucket name : String) : String :=
  "https://" ++ bucket ++ ".s3.amazonaws.com/" ++ spec_urlEncode name

/-!
Client side (src/App.jsx). The component state is the pair of useState
hooks: selectedFile and uploadedFileUrl. Handlers are embedded as pure
functions from state (and the outcome of the axios call) to new state
plus their observable effects (console lines, opened windows).
-/

/-- The React component state: the selectedFile hook (null initially) and
the uploadedFileUrl hook (the empty string initially). -/
structure ClientState where
  selectedFile : Option UploadedFile
  uploadedFileUrl : String
deriving DecidableEq, Repr

/-- Outcome of the axios.post call inside handleUpload: it resolves with a
response whose data.fileUrl is a string, or it rejects with an error. -/
inductive AxiosResult where
  | success : String → AxiosResult
  | failure : String → AxiosResult
deriving DecidableEq, Repr

/-- handleUpload from App.jsx: on success, setUploadedFileUrl with the
fileUrl of the response body; in the catch block, console.error only and
the state is left untouched. Returns the new state and the console.error
lines emitted. -/
def handleUpload (s : ClientState) (r : AxiosResult) :
    ClientState × List String :=
  match r with
  | .success url => ({ s with uploadedFileUrl := url }, [])
  | .failure e => (s, ["Failed to upload file: " ++ e])

/-- handleDownload from App.jsx: window.open(uploadedFileUrl) only when
uploadedFileUrl is truthy (a non-empty string). Returns the list of URLs
opened in a new browsing context. -/
def handleDownload (s : ClientState) : List String :=
  if s.uploadedFileUrl = "" then [] else [s.uploadedFileUrl]

/-- The disabled attribute of the Upload button: disabled={!selectedFile},
and null is falsy, so the button is disabled exactly when no file is
selected. -/
def uploadButtonDisabled (s : ClientState) : Bool :=
  s.selectedFile.isNone

/-- Whether the uploaded section (the File uploaded! label and the
Download button) is rendered: the JSX guards it with uploadedFileUrl &&,
so it renders exactly when uploadedFileUrl is a non-empty string. -/
def downloadButtonRendered (s : ClientState) : Bool :=
  !(s.uploadedFileUrl == "")

/-- A click on the Upload button: a disabled button fires no onClick, so
the state is unchanged and nothing is logged; otherwise handleUpload
runs. -/
def clickUpload (s : ClientState) (r : AxiosResult) :
    ClientState × List String :=
  if uploadButtonDisabled s then (s, []) else handleUpload s r

/-- The three states of the client state machine described by the spec. -/
inductive ViewState where
  | Idle : ViewState
  | Ready : ViewState
  | Uploaded : ViewState
deriving DecidableEq, Repr

/-- The state machine of the spec read off the two hooks: Uploaded when a
URL is available, Ready when a file is chosen but no URL yet, Idle
otherwise. -/
def viewState (s : ClientState) : ViewState :=
  if s.uploadedFileUrl = "" then
    (if s.selectedFile.isSome then .Ready else .Idle)
  else .Uploaded

/-!
Theorems for the claims.
-/

/-- Helper: the URL the code builds always starts with https:// and is
therefore never the empty string. -/
theorem codeFileUrl_ne_empty (bucket name : String) :
    codeFileUrl bucket name ≠ "" := by
  intro h
  have h2 := congrArg String.length h
  simp [codeFileUrl, String.length_append] at h2
  exact absurd h2.1.1.1 (by decide)

/-- C1, counterexample: the handler completes successfully on a file named
my file.txt, and the fileUrl it returns carries the raw name, while the
URL-encoding the claim prescribes would give my%20file.txt; the two URLs
differ, so the claim as stated is false at this input. -/
theorem C1_counterexample :
    apiUpload "demo-bucket" ⟨some ⟨"my file.txt", "text/plain", [104, 105]⟩⟩ .ok =
      .handlerResponse [⟨"demo-bucket", "my file.txt", [104, 105], "text/plain"⟩]
        ⟨200, [("fileUrl", "https://demo-bucket.s3.amazonaws.com/my file.txt")]⟩ ∧
    spec_fileUrl "demo-bucket" "my file.txt" =
      "https://demo-bucket.s3.amazonaws.com/my%20file.txt" ∧
    ("https://demo-bucket.s3.amazonaws.com/my file.txt" : String) ≠
      "https://demo-bucket.s3.amazonaws.com/my%20file.txt" := by
  refine ⟨by decide, by decide, by decide⟩

/-- C1, amended: for every upload request that the handler completes
successfully, the fileUrl string returned in the response body equals
https://bucket.s3.amazonaws.com/ followed by the original filename
inserted raw, with no URL-encoding applied. -/
theorem C1_fileUrl_raw_originalname (bucket : String) (req : UploadRequest)
    (s3 : S3Outcome) (sent : List PutObjectParams) (url : String)
    (h : apiUpload bucket req s3 = .handlerResponse sent ⟨200, [("fileUrl", url)]⟩) :
    ∃ f, req.file? = some f ∧
      url = "https://" ++ bucket ++ ".s3.amazonaws.com/" ++ f.originalname := by
  obtain ⟨rf⟩ := req
  cases rf with
  | none => simp [apiUpload, multerSingle, uploadHandler] at h
  | some f =>
    by_cases hs : sizeBytes f ≤ fileSizeLimit
    · cases s3 with
      | failure => simp [apiUpload, multerSingle, uploadHandler, hs] at h
      | ok =>
        simp [apiUpload, multerSingle, uploadHandler, hs, codeFileUrl] at h
        exact ⟨f, rfl, h.2.symm⟩
    · simp [apiUpload, multerSingle, hs] at h

/-- Witness for C1: the amended statement applied to a concrete
successful upload of a.txt. -/
theorem C1_fileUrl_raw_originalname_witness :
    ∃ f, (UploadRequest.mk (some ⟨"a.txt", "text/plain", [104]⟩)).file? = some f ∧
      "https://demo-bucket.s3.amazonaws.com/a.txt" =
        "https://" ++ "demo-bucket" ++ ".s3.amazonaws.com/" ++ f.originalname :=
  C1_fileUrl_raw_originalname "demo-bucket" ⟨some ⟨"a.txt", "text/plain", [104]⟩⟩
    .ok [⟨"demo-bucket", "a.txt", [104], "text/plain"⟩]
    "https://demo-bucket.s3.amazonaws.com/a.txt" (by decide)

/-- C2, counterexample: on a request with no file field, no
PutObjectCommand is sent, but the response has status 500, which is not in
the client-error range, so the claim that the failure is reported as a
client error is false at this input. -/
theorem C2_counterexample :
    apiUpload "demo-bucket" ⟨none⟩ .ok =
      .handlerResponse [] ⟨500, [("error", "Failed to upload file to S3")]⟩ ∧
    ¬ isClientErrorStatus 500 :=
  ⟨rfl, by decide⟩

/-- C2, amended: for every request whose multipart body carries no file
field, the handler sends no PutObjectCommand, but the failure is reported
as a server error: reading mimetype of the undefined req.file throws, the
catch block answers status 500 with the storage-failure error body, and
500 is not a client-error status. -/
theorem C2_missing_file_no_put (bucket : String) (s3 : S3Outcome) :
    apiUpload bucket ⟨none⟩ s3 =
      .handlerResponse [] ⟨500, [("error", "Failed to upload file to S3")]⟩ ∧
    ¬ isClientErrorStatus (uploadHandler bucket none s3).2.status :=
  ⟨rfl, (by decide : ¬ isClientErrorStatus 500)⟩

/-- C3: the configured limit is 25 MiB; every upload the middleware passes
to the handler is at most fileSizeLimit bytes; and a request whose file
exceeds the limit is rejected by the middleware, the handler never runs,
and no PutObjectCommand is sent. -/
theorem C3_size_limit (bucket : String) (req : UploadRequest) (s3 : S3Outcome)
    (f : UploadedFile) :
    fileSizeLimit = 25 * 1024 * 1024 ∧
    (multerSingle req = .pass (some f) → sizeBytes f ≤ fileSizeLimit) ∧
    (req.file? = some f → fileSizeLimit < sizeBytes f →
      apiUpload bucket req s3 = .middlewareReject ∧
      sentCommands (apiUpload bucket req s3) = []) := by
  obtain ⟨rf⟩ := req
  refine ⟨rfl, ?_, ?_⟩
  · intro h
    cases rf with
    | none => simp [multerSingle] at h
    | some g =>
      by_cases hs : sizeBytes g ≤ fileSizeLimit
      · simp [multerSingle, hs] at h
        exact h ▸ hs
      · simp [multerSingle, hs] at h
  · intro hf hlt
    simp only [UploadRequest.file?] at hf
    subst hf
    have hns : ¬ sizeBytes f ≤ fileSizeLimit := Nat.not_le.mpr hlt
    simp [apiUpload, multerSingle, sentCommands, hns]

/-- Witness for C3: a file one byte over the 25 MiB limit is rejected by
the middleware with no PutObjectCommand sent. -/
theorem C3_size_limit_witness :
    apiUpload "demo-bucket"
        ⟨some ⟨"big.bin", "application/octet-stream",
          List.replicate (25 * 1024 * 1024 + 1) 0⟩⟩ .ok = .middlewareReject ∧
    sentCommands (apiUpload "demo-bucket"
        ⟨some ⟨"big.bin", "application/octet-stream",
          List.replicate (25 * 1024 * 1024 + 1) 0⟩⟩ .ok) = [] :=
  (C3_size_limit "demo-bucket"
      ⟨some ⟨"big.bin", "application/octet-stream",
        List.replicate (25 * 1024 * 1024 + 1) 0⟩⟩ .ok
      ⟨"big.bin", "application/octet-stream",
        List.replicate (25 * 1024 * 1024 + 1) 0⟩).2.2 rfl
    (by simp only [sizeBytes, List.length_replicate, fileSizeLimit]; omega)

/-- C4: for every request carrying a file within the size limit, the
storage write sent is exactly one PutObjectCommand whose bucket is the
configured bucket, key the original name, body the file bytes, and
content type the declared mime type, whatever the storage outcome. -/
theorem C4_put_params (bucket : String) (f : UploadedFile) (s3 : S3Outcome)
    (h : sizeBytes f ≤ fileSizeLimit) :
    sentCommands (apiUpload bucket ⟨some f⟩ s3) =
      [⟨bucket, f.originalname, f.buffer, f.mimetype⟩] := by
  cases s3 <;> simp [apiUpload, multerSingle, uploadHandler, sentCommands, h]

/-- Witness for C4: the concrete command sent for a two-byte text file. -/
theorem C4_put_params_witness :
    sentCommands (apiUpload "demo-bucket"
        ⟨some ⟨"a.txt", "text/plain", [104, 105]⟩⟩ .failure) =
      [⟨"demo-bucket", "a.txt", [104, 105], "text/plain"⟩] :=
  C4_put_params "demo-bucket" ⟨"a.txt", "text/plain", [104, 105]⟩ .failure
    (by decide)

/-- C5: when the storage write fails on an in-limit file, the handler
responds 500 with the JSON error body, the body carries no fileUrl field,
and exactly one PutObjectCommand was attempted (no retry). -/
theorem C5_storage_failure_500 (bucket : String) (f : UploadedFile)
    (h : sizeBytes f ≤ fileSizeLimit) :
    apiUpload bucket ⟨some f⟩ .failure =
      .handlerResponse [⟨bucket, f.originalname, f.buffer, f.mimetype⟩]
        ⟨500, [("error", "Failed to upload file to S3")]⟩ ∧
    bodyField (uploadHandler bucket (some f) .failure).2 "fileUrl" = none ∧
    (sentCommands (apiUpload bucket ⟨some f⟩ .failure)).length = 1 := by
  refine ⟨?_, ?_, ?_⟩ <;>
    simp [apiUpload, multerSingle, uploadHandler, sentCommands, bodyField, h]

/-- Witness for C5: the storage-failure response for a concrete file. -/
theorem C5_storage_failure_500_witness :
    apiUpload "demo-bucket" ⟨some ⟨"a.txt", "text/plain", [104]⟩⟩ .failure =
      .handlerResponse [⟨"demo-bucket", "a.txt", [104], "text/plain"⟩]
        ⟨500, [("error", "Failed to upload file to S3")]⟩ ∧
    bodyField (uploadHandler "demo-bucket"
        (some ⟨"a.txt", "text/plain", [104]⟩) .failure).2 "fileUrl" = none ∧
    (sentCommands (apiUpload "demo-bucket"
        ⟨some ⟨"a.txt", "text/plain", [104]⟩⟩ .failure)).length = 1 :=
  C5_storage_failure_500 "demo-bucket" ⟨"a.txt", "text/plain", [104]⟩ (by decide)

/-- C6: when the axios call fails, handleUpload leaves the client state
exactly as it was (uploadedFileUrl keeps its prior value, the view state
machine does not move), the error goes only to the console, and every
rendered element (upload button, download section) is unchanged. -/
theorem C6_failure_state_unchanged (s : ClientState) (e : String) :
    handleUpload s (.failure e) = (s, ["Failed to upload file: " ++ e]) ∧
    viewState (handleUpload s (.failure e)).1 = viewState s ∧
    uploadButtonDisabled (handleUpload s (.failure e)).1 = uploadButtonDisabled s ∧
    downloadButtonRendered (handleUpload s (.failure e)).1 = downloadButtonRendered s := by
  simp [handleUpload]

/-- C7: when the endpoint completes an upload successfully and the client
axios call resolves with the returned fileUrl, handleUpload stores that
URL in uploadedFileUrl and the view state machine is in Uploaded. -/
theorem C7_success_stores_url (bucket : String) (f : UploadedFile)
    (s : ClientState) (sent : List PutObjectParams) (url : String)
    (h : apiUpload bucket ⟨some f⟩ .ok =
      .handlerResponse sent ⟨200, [("fileUrl", url)]⟩) :
    (handleUpload s (.success url)).1.uploadedFileUrl = url ∧
    viewState (handleUpload s (.success url)).1 = .Uploaded := by
  by_cases hs : sizeBytes f ≤ fileSizeLimit
  · simp [apiUpload, multerSingle, uploadHandler, hs] at h
    have hne : url ≠ "" := h.2 ▸ codeFileUrl_ne_empty bucket f.originalname
    exact ⟨rfl, by simp [handleUpload, viewState, hne]⟩
  · simp [apiUpload, multerSingle, hs] at h

/-- Witness for C7: storing the concrete URL returned for a.txt moves the
client to Uploaded. -/
theorem C7_success_stores_url_witness :
    (handleUpload ⟨some ⟨"a.txt", "text/plain", [104]⟩, ""⟩
        (.success "https://demo-bucket.s3.amazonaws.com/a.txt")).1.uploadedFileUrl =
      "https://demo-bucket.s3.amazonaws.com/a.txt" ∧
    viewState (handleUpload ⟨some ⟨"a.txt", "text/plain", [104]⟩, ""⟩
        (.success "https://demo-bucket.s3.amazonaws.com/a.txt")).1 = .Uploaded :=
  C7_success_stores_url "demo-bucket" ⟨"a.txt", "text/plain", [104]⟩
    ⟨some ⟨"a.txt", "text/plain", [104]⟩, ""⟩
    [⟨"demo-bucket", "a.txt", [104], "text/plain"⟩]
    "https://demo-bucket.s3.amazonaws.com/a.txt" (by decide)

/-- C8: for every request that reaches the handler, the response is
status 200 with a body of shape fileUrl-to-string, or status 500 with a
body of shape error-to-string; no other status is produced. -/
theorem C8_response_shape (bucket : String) (rf : Option UploadedFile)
    (s3 : S3Outcome) :
    ((uploadHandler bucket rf s3).2.status = 200 ∧
      ∃ u, (uploadHandler bucket rf s3).2.body = [("fileUrl", u)]) ∨
    ((uploadHandler bucket rf s3).2.status = 500 ∧
      ∃ e, (uploadHandler bucket rf s3).2.body = [("error", e)]) := by
  cases rf with
  | none => exact Or.inr ⟨rfl, "Failed to upload file to S3", rfl⟩
  | some f =>
    cases s3 with
    | ok => exact Or.inl ⟨rfl, codeFileUrl bucket f.originalname, rfl⟩
    | failure => exact Or.inr ⟨rfl, "Failed to upload file to S3", rfl⟩

/-- C9: whenever no file is selected, the Upload button is disabled and a
click on it changes nothing: the upload action cannot fire from Idle, so
the Ready-to-Uploaded transition is unreachable without a chosen file. -/
theorem C9_idle_upload_disabled (s : ClientState) (r : AxiosResult)
    (h : s.selectedFile = none) :
    uploadButtonDisabled s = true ∧ clickUpload s r = (s, []) := by
  have hd : uploadButtonDisabled s = true := by simp [uploadButtonDisabled, h]
  exact ⟨hd, by simp [clickUpload, hd]⟩

/-- Witness for C9: the initial client state has the button disabled and
clicking is a no-op. -/
theorem C9_idle_upload_disabled_witness :
    uploadButtonDisabled ⟨none, ""⟩ = true ∧
    clickUpload ⟨none, ""⟩ (.failure "network error") = (⟨none, ""⟩, []) :=
  C9_idle_upload_disabled ⟨none, ""⟩ (.failure "network error") rfl

/-- C10: when uploadedFileUrl is empty the download action opens nothing
and the Download button is not rendered; any URL handleDownload opens is
the non-empty stored URL; and the button renders exactly when the stored
URL is non-empty. -/
theorem C10_download_guard (s : ClientState) :
    (s.uploadedFileUrl = "" →
      handleDownload s = [] ∧ downloadButtonRendered s = false) ∧
    (∀ u ∈ handleDownload s, s.uploadedFileUrl ≠ "" ∧ u = s.uploadedFileUrl) ∧
    (downloadButtonRendered s = true ↔ s.uploadedFileUrl ≠ "") := by
  by_cases h : s.uploadedFileUrl = "" <;>
    simp [handleDownload, downloadButtonRendered, h]

/-- Witness for C10: in the initial state the download action is a no-op
and the Download button is absent. -/
theorem C10_download_guard_witness :
    handleDownload ⟨none, ""⟩ = [] ∧ downloadButtonRendered ⟨none, ""⟩ = false :=
  (C10_download_guard ⟨none, ""⟩).1 rfl
